import Mathlib

/-!
Shallow embedding of src/main.js (sprite-sheet animation player).

Modelling conventions:
  - JS numbers are modelled as rationals (`ℚ`).  Non-finite JS values
    (NaN, Infinity) are not representable in this domain, so the
    `Number.isFinite` checks of the source hold identically and are noted
    where they occur; `Number.isInteger q` is `q.den = 1`.
  - An optional JSON field is `Option _`; `none` covers both an absent
    field (undefined) and JSON null, which the source treats alike through
    the `??` operator and `Array.isArray` (the one place where null and
    undefined must be kept apart, the top-level `defaults` field checked
    with `typeof`, uses the dedicated type `DefaultsField`).
  - JS objects used as string-keyed maps become association lists in
    insertion order, matching `Object.entries` / `Object.keys` iteration;
    the two property reads that can hit the prototype chain of the object
    literal (lines 45 and 272) are modelled by `animKeyTruthy`, which also
    admits the inherited `Object.prototype` keys.
  - A JS function that can `throw` becomes `Except AppError _`.
-/

/-- A frame rectangle `{x, y, w, h}` as read from JSON. -/
structure Rect where
  x : ℚ
  y : ℚ
  w : ℚ
  h : ℚ
deriving Repr, DecidableEq

/-- A raw per-animation spec from the JSON config.  Every field is optional;
`none` is an absent (or null) field. -/
structure AnimSpec where
  label : Option String := none
  frameDurationMs : Option ℚ := none
  scale : Option ℚ := none
  frames : Option (List Rect) := none
  row : Option ℚ := none
  frameCount : Option ℚ := none
  startCol : Option ℚ := none
  frameWidth : Option ℚ := none
  frameHeight : Option ℚ := none
  sheetOffsetX : Option ℚ := none
  sheetOffsetY : Option ℚ := none
deriving Repr, DecidableEq

/-- The raw top-level `defaults` object of the JSON config (all fields
optional). -/
structure DefaultsSpec where
  frameDurationMs : Option ℚ := none
  scale : Option ℚ := none
  frameWidth : Option ℚ := none
  frameHeight : Option ℚ := none
  sheetOffsetX : Option ℚ := none
  sheetOffsetY : Option ℚ := none
deriving Repr, DecidableEq

/-- The top-level `defaults` field of the config, keeping undefined, null,
objects and non-object values apart, because `validateAnimations` inspects it
with `typeof` (line 248) and `normalizeAnimations` with `||` (line 131). -/
inductive DefaultsField where
  | undef
  | null
  | obj (d : DefaultsSpec)
  | nonObject
deriving Repr, DecidableEq

/-- The parsed top-level JSON config: `{defaults?, defaultAnimation?,
animations}`.  `data` itself and `data.animations` are objects by
construction in this embedding. -/
structure ConfigData where
  defaults : DefaultsField := .undef
  defaultAnimation : Option String := none
  animations : List (String × AnimSpec)
deriving Repr, DecidableEq

/-- The fully merged defaults object built at lines 124-132 (every field
concrete). -/
structure Defaults where
  frameDurationMs : ℚ
  scale : ℚ
  frameWidth : ℚ
  frameHeight : ℚ
  sheetOffsetX : ℚ
  sheetOffsetY : ℚ
deriving Repr, DecidableEq

/-- A normalized animation entry (lines 156-161). -/
structure AnimEntry where
  label : String
  frameDurationMs : ℚ
  scale : ℚ
  frames : List Rect
deriving Repr, DecidableEq

/-- The normalized animation table (line 134-138): the defaults, the fields
carried over from the raw config by the object spread (here
`defaultAnimation`, the one such field the program reads), and the rebuilt
`animations` map in insertion order. -/
structure AnimTable where
  defaults : Defaults
  defaultAnimation : Option String
  animations : List (String × AnimEntry)
deriving Repr, DecidableEq

/-- The error kinds thrown by validation, normalization and startup
selection; each carries exactly the data the JS message interpolates. -/
inductive AppError where
  | schemaDefaultsNotObject
  | animationNeedsFrames (name : String)
  | animationInvalidFrame (name : String)
  | noAnimations
deriving Repr, DecidableEq

/-- Number.isInteger on the embedded domain: a rational is a JS integer iff
its denominator is 1. -/
def jsIsInteger (q : ℚ) : Prop := q.den = 1

instance (q : ℚ) : Decidable (jsIsInteger q) := by
  unfold jsIsInteger; infer_instance

/-- isValidFrame, lines 81-91: finite x/y/w/h with w and h positive.  The
four Number.isFinite conjuncts hold identically over ℚ. -/
def isValidFrame (frame : Rect) : Bool :=
  decide (0 < frame.w) && decide (0 < frame.h)

/-- The grid validation test of buildFramesFromRow, lines 100-108 (stated
positively: the function returns null exactly when this fails).  The two
Number.isFinite conjuncts hold identically over ℚ and are omitted. -/
def gridSpecValid (row frameCount frameWidth frameHeight : ℚ) : Prop :=
  jsIsInteger row ∧ jsIsInteger frameCount ∧ 1 ≤ frameCount ∧
    0 < frameWidth ∧ 0 < frameHeight

instance (row frameCount frameWidth frameHeight : ℚ) :
    Decidable (gridSpecValid row frameCount frameWidth frameHeight) := by
  unfold gridSpecValid; infer_instance

/-- buildFramesFromRow, lines 93-121: derive `frameCount` rectangles along
one row of the sheet, or return the null marker when validation fails.
Missing `row` or `frameCount` (undefined) fail Number.isInteger and land in
the null branch. -/
def buildFramesFromRow (animation : AnimSpec) (defaults : Defaults) :
    Option (List Rect) :=
  let frameWidth := animation.frameWidth.getD defaults.frameWidth
  let frameHeight := animation.frameHeight.getD defaults.frameHeight
  let startCol := animation.startCol.getD 0
  match animation.row, animation.frameCount with
  | some row, some frameCount =>
    if gridSpecValid row frameCount frameWidth frameHeight then
      let sheetOffsetX := animation.sheetOffsetX.getD defaults.sheetOffsetX
      let sheetOffsetY := animation.sheetOffsetY.getD defaults.sheetOffsetY
      some ((List.range frameCount.num.toNat).map fun (index : ℕ) =>
        { x := sheetOffsetX + (startCol + (index : ℚ)) * frameWidth
          y := sheetOffsetY + row * frameHeight
          w := frameWidth
          h := frameHeight })
    else none
  | _, _ => none

/-- Lines 130-131: `data.defaults || {}`.  null and undefined are falsy and
replaced by the empty object; a non-object primitive would spread no
properties, which is the same empty contribution. -/
def defaultsOrEmpty : DefaultsField → DefaultsSpec
  | .obj d => d
  | _ => {}

/-- The defaults object of lines 124-132: hardcoded base values, overridden
field by field by the supplied object (JS object spread: a field present in
the supplied object wins). -/
def mergeDefaults (d : DefaultsSpec) : Defaults where
  frameDurationMs := d.frameDurationMs.getD 120
  scale := d.scale.getD 4
  frameWidth := d.frameWidth.getD 32
  frameHeight := d.frameHeight.getD 32
  sheetOffsetX := d.sheetOffsetX.getD 0
  sheetOffsetY := d.sheetOffsetY.getD 0

/-- Line 141: `name.charAt(0).toUpperCase() + name.slice(1)` (on the empty
string both halves are empty). -/
def fallbackLabel (name : String) : String :=
  match name.data with
  | [] => ""
  | c :: cs => String.mk (c.toUpper :: cs)

/-- Lines 142-144: use the explicit `frames` field whenever it is an array
(even an empty one), otherwise derive frames from the grid parameters. -/
def resolveFrames (animation : AnimSpec) (defaults : Defaults) :
    Option (List Rect) :=
  match animation.frames with
  | some fs => some fs
  | none => buildFramesFromRow animation defaults

/-- The body of the normalization loop, lines 140-162, for one named
animation: resolve frames, reject a missing or empty resolution, validate
every frame, then build the normalized entry. -/
def normalizeEntry (defaults : Defaults) (name : String)
    (animation : AnimSpec) : Except AppError AnimEntry :=
  match resolveFrames animation defaults with
  | none => .error (.animationNeedsFrames name)
  | some [] => .error (.animationNeedsFrames name)
  | some fs =>
    if fs.all isValidFrame then
      .ok { label := animation.label.getD (fallbackLabel name)
            frameDurationMs :=
              animation.frameDurationMs.getD defaults.frameDurationMs
            scale := animation.scale.getD defaults.scale
            frames := fs }
    else .error (.animationInvalidFrame name)

/-- The normalization loop of lines 140-162 over the entries in insertion
order, stopping at the first failing animation exactly as the JS `throw`
does. -/
def normalizeList (defaults : Defaults) :
    List (String × AnimSpec) → Except AppError (List (String × AnimEntry))
  | [] => .ok []
  | (name, animation) :: rest => do
    let entry ← normalizeEntry defaults name animation
    let restEntries ← normalizeList defaults rest
    return (name, entry) :: restEntries

/-- normalizeAnimations, lines 123-165. -/
def normalizeAnimations (data : ConfigData) : Except AppError AnimTable := do
  let defaults := mergeDefaults (defaultsOrEmpty data.defaults)
  let entries ← normalizeList defaults data.animations
  return { defaults := defaults
           defaultAnimation := data.defaultAnimation
           animations := entries }

/-- validateAnimations, lines 239-251.  In this embedding `data` and
`data.animations` are objects by construction, so the first two checks
always pass; the `defaults` check rejects exactly a present non-object
value, since `typeof null` and `typeof` of any object are "object" and an
absent field is "undefined". -/
def validateAnimations (data : ConfigData) : Except AppError Unit :=
  match data.defaults with
  | .nonObject => .error .schemaDefaultsNotObject
  | _ => .ok ()

/-- Own-property lookup on the animations map: the entry stored under the
key, if any (own enumerable keys in insertion order).  The full JS
property access `state.animations.animations[key]` can also hit the
prototype chain of the object literal; its truthiness, which is what
lines 45 and 272 test, is `animKeyTruthy` below. -/
def lookupAnim (table : AnimTable) (key : String) : Option AnimEntry :=
  (table.animations.find? (fun p => p.1 == key)).map Prod.snd

/-- The keys of the own properties of Object.prototype, which every object
literal inherits: the ECMAScript standard methods and the __proto__
accessor, plus the Annex B legacy accessor methods present in browsers.
Each is bound to a function (for __proto__, an object), so a property
access through one of these keys is truthy. -/
def objectPrototypeKeys : List String :=
  ["constructor", "hasOwnProperty", "isPrototypeOf", "propertyIsEnumerable",
   "toLocaleString", "toString", "valueOf", "__proto__",
   "__defineGetter__", "__defineSetter__", "__lookupGetter__",
   "__lookupSetter__"]

/-- Truthiness of the JS property access `state.animations.animations[key]`
as tested at lines 45 and 272: true when the key is an own key of the
table (entry values are objects, hence truthy) or an inherited
Object.prototype property. -/
def animKeyTruthy (table : AnimTable) (key : String) : Bool :=
  (lookupAnim table key).isSome || objectPrototypeKeys.contains key

/-- The playback part of the mutable `state` object (lines 9-16):
`activeAnimationKey`, `frameIndex`, `frameTimerMs`. -/
structure PlaybackState where
  activeAnimationKey : Option String
  frameIndex : ℕ
  frameTimerMs : ℚ
deriving Repr, DecidableEq

/-- setAnimation, lines 44-56 (the playback-state part; button styling and
status text are DOM glue).  The guard at line 45 tests the truthiness of
the property access animations[key]: when it is falsy the function
returns without touching the state; when it is truthy - an own entry, or
an inherited Object.prototype key such as toString - the key becomes
active with frameIndex and frameTimerMs reset to 0.  (For an inherited
key, line 54 then reads .label of the inherited function, which is
undefined, so the status text falls back to the key itself; DOM glue,
not modelled.) -/
def setAnimation (table : AnimTable) (st : PlaybackState) (key : String) :
    PlaybackState :=
  if animKeyTruthy table key then
    { activeAnimationKey := some key, frameIndex := 0, frameTimerMs := 0 }
  else st

/-- One execution of the body of the frame-advance while loop of draw,
lines 183-184: subtract the frame duration from the timer and step the
frame index modulo the frame count. -/
def drawLoopBody (frameDurationMs : ℚ) (frameCount : ℕ) (s : ℕ × ℚ) :
    ℕ × ℚ :=
  ((s.1 + 1) % frameCount, s.2 - frameDurationMs)

/-- The guard of the frame-advance while loop of draw, line 182. -/
def drawLoopGuard (frameDurationMs : ℚ) (s : ℕ × ℚ) : Prop :=
  frameDurationMs ≤ s.2

/-- The while loop of draw, lines 182-185, as a function from the starting
(frameIndex, frameTimerMs) pair to the pair at loop exit.  The JS loop
terminates exactly when `0 < frameDurationMs` (or the guard is false at
entry); the `0 < frameDurationMs` conjunct added to the guard here makes
the function total by exiting at once in the case where the JS loop would
run forever (that divergence is proved separately on `drawLoopBody`). -/
def advanceLoop (frameDurationMs : ℚ) (frameCount : ℕ) (s : ℕ × ℚ) :
    ℕ × ℚ :=
  if h : 0 < frameDurationMs ∧ frameDurationMs ≤ s.2 then
    advanceLoop frameDurationMs frameCount
      ((s.1 + 1) % frameCount, s.2 - frameDurationMs)
  else s
termination_by ⌊s.2 / frameDurationMs⌋.toNat
decreasing_by
  have hd : 0 < frameDurationMs := h.1
  have h1 : (1 : ℚ) ≤ s.2 / frameDurationMs := (one_le_div hd).mpr h.2
  have hfloor : (1 : ℤ) ≤ ⌊s.2 / frameDurationMs⌋ := by
    exact_mod_cast Int.le_floor.mpr (by exact_mod_cast h1)
  have hsub : (s.2 - frameDurationMs) / frameDurationMs
      = s.2 / frameDurationMs - 1 := by
    field_simp
  simp only [hsub, Int.floor_sub_one]
  omega

/-- Lines 180-185 of draw: accumulate the elapsed milliseconds into the
frame timer, then run the advance loop. -/
def advanceClock (frameDurationMs : ℚ) (frameCount : ℕ) (s : ℕ × ℚ)
    (deltaMs : ℚ) : ℕ × ℚ :=
  advanceLoop frameDurationMs frameCount (s.1, s.2 + deltaMs)

/-- A whole sequence of ticks: fold the per-tick advance of lines 180-185
over a list of elapsed times, starting from the reset state
(frameIndex = 0, frameTimerMs = 0) that setAnimation establishes. -/
def runClock (frameDurationMs : ℚ) (frameCount : ℕ) (deltas : List ℚ) :
    ℕ × ℚ :=
  deltas.foldl (advanceClock frameDurationMs frameCount) (0, 0)

/-- Object.keys(state.animations.animations)[0] at line 274: the first key
in insertion order, if any. -/
def firstKey (table : AnimTable) : Option String :=
  table.animations.head?.map Prod.fst

/-- The startAnimation expression of lines 271-274: the declared
defaultAnimation when it is truthy (a present, non-empty string) and the
property access animations[defaultAnimation] is truthy (an entry exists,
or the name is an inherited Object.prototype key), else the first key.
The result is an Option because `Object.keys(...)[0]` is undefined on an
empty table. -/
def startAnimationOf (table : AnimTable) : Option String :=
  match table.defaultAnimation with
  | some dk =>
    if dk = "" then firstKey table
    else if animKeyTruthy table dk then some dk
    else firstKey table
  | none => firstKey table

/-- Lines 271-278 of init: pick the starting animation key, throwing the
no-animations error when the chosen value is falsy, which happens both when
it is undefined (empty table) and when it is the empty string. -/
def initSelect (table : AnimTable) : Except AppError String :=
  match startAnimationOf table with
  | none => .error .noAnimations
  | some k => if k = "" then .error .noAnimations else .ok k

/-! Helper lemmas about the draw advance loop. -/

/-- The loop exits as soon as its guard (with the totalizing positivity
conjunct) fails. -/
theorem advanceLoop_exit (d : ℚ) (n : ℕ) (s : ℕ × ℚ)
    (h : ¬(0 < d ∧ d ≤ s.2)) : advanceLoop d n s = s := by
  rw [advanceLoop]
  simp [h]

/-- One unfolding of the loop while the guard holds. -/
theorem advanceLoop_step (d : ℚ) (n : ℕ) (s : ℕ × ℚ)
    (hd : 0 < d) (hs : d ≤ s.2) :
    advanceLoop d n s = advanceLoop d n ((s.1 + 1) % n, s.2 - d) := by
  conv_lhs => rw [advanceLoop]
  simp [hd, hs]

/-- The loop keeps the frame index below the frame count. -/
theorem advanceLoop_fst_lt (d : ℚ) (n : ℕ) (hn : 0 < n) (s : ℕ × ℚ)
    (hs : s.1 < n) : (advanceLoop d n s).1 < n := by
  induction s using advanceLoop.induct d n with
  | case1 s h ih =>
    rw [advanceLoop_step d n s h.1 h.2]
    exact ih (Nat.mod_lt _ hn)
  | case2 s h =>
    rw [advanceLoop_exit d n s h]
    exact hs

/-- With a zero frame duration the loop body leaves the timer unchanged. -/
theorem drawLoopBody_zero_snd (n : ℕ) (x : ℕ × ℚ) :
    (drawLoopBody 0 n x).2 = x.2 := by
  simp [drawLoopBody]

/-- A config whose only animation supplies frameDurationMs 0 (explicit
frames, so frame resolution succeeds). -/
def cfgZeroDuration : ConfigData :=
  { animations :=
      [("stall", { frames := some [⟨0, 0, 32, 32⟩],
                   frameDurationMs := some 0 })] }

/-- C2: the claim that successful normalization guarantees
frameDurationMs > 0 is contradicted by the code: normalizeAnimations never
inspects frameDurationMs, so a supplied value of 0 flows into the table
unchanged, and on such an entry the draw advance loop never exits: after
the first tick (default delta 16, line 214) the guard
frameTimerMs >= frameDurationMs holds after every number of executions of
the loop body. -/
theorem claim_C2_code_bug :
    normalizeAnimations cfgZeroDuration =
      .ok { defaults := ⟨120, 4, 32, 32, 0, 0⟩
            defaultAnimation := none
            animations := [("stall",
              { label := "Stall", frameDurationMs := 0, scale := 4,
                frames := [⟨0, 0, 32, 32⟩] })] }
    ∧ ∀ k : ℕ, drawLoopGuard 0 ((drawLoopBody 0 1)^[k] (0, 16)) := by
  constructor
  · simp [normalizeAnimations, normalizeList, normalizeEntry, resolveFrames,
      isValidFrame, mergeDefaults, defaultsOrEmpty, fallbackLabel,
      cfgZeroDuration]
    rfl
  · intro k
    have hsnd : ((drawLoopBody 0 1)^[k] (0, 16)).2 = (16 : ℚ) := by
      induction k with
      | zero => rfl
      | succ m ih =>
        rw [Function.iterate_succ_apply', drawLoopBody_zero_snd, ih]
    unfold drawLoopGuard
    rw [hsnd]
    norm_num

/-- C3: the playback clock adds the elapsed time to the timer, then, while
the timer is at least the frame duration, subtracts the duration and steps
the frame index by one modulo the frame count; in particular with duration
100, frame count 4, starting from index 0 and timer 0, advancing by 250
yields index 2 and timer 50. -/
theorem claim_C3_advance (d : ℚ) (n : ℕ) (s : ℕ × ℚ) (deltaMs : ℚ) :
    advanceClock d n s deltaMs = advanceLoop d n (s.1, s.2 + deltaMs)
    ∧ (0 < d → d ≤ s.2 →
        advanceLoop d n s = advanceLoop d n ((s.1 + 1) % n, s.2 - d))
    ∧ (s.2 < d → advanceLoop d n s = s)
    ∧ advanceClock 100 4 (0, 0) 250 = (2, 50) := by
  refine ⟨rfl, fun hd hs => advanceLoop_step d n s hd hs,
    fun hlt => advanceLoop_exit d n s (by push_neg; intro; linarith), ?_⟩
  unfold advanceClock
  rw [advanceLoop]; norm_num
  rw [advanceLoop]; norm_num
  rw [advanceLoop]
  norm_num

/-- Witness for C3 at concrete inputs: one guarded step, one exit, and the
spec example. -/
theorem claim_C3_advance_witness :
    advanceLoop 100 4 (1, 150) = advanceLoop 100 4 (2, 50)
    ∧ advanceLoop 100 4 (2, 50) = (2, 50)
    ∧ advanceClock 100 4 (0, 0) 250 = (2, 50) := by
  refine ⟨?_, ?_, ?_⟩
  · have h := (claim_C3_advance 100 4 (1, 150) 0).2.1 (by norm_num) (by norm_num)
    norm_num at h
    exact h
  · exact (claim_C3_advance 100 4 (2, 50) 0).2.2.1 (by norm_num)
  · exact (claim_C3_advance 100 4 (0, 0) 250).2.2.2

/-- Folding ticks preserves the frame-index bound from any starting state
whose index is in range. -/
theorem foldl_advanceClock_fst_lt (d : ℚ) (n : ℕ) (hn : 0 < n)
    (deltas : List ℚ) : ∀ s : ℕ × ℚ, s.1 < n →
    (deltas.foldl (advanceClock d n) s).1 < n := by
  induction deltas with
  | nil => intro s hs; simpa using hs
  | cons δ rest ih =>
    intro s hs
    simp only [List.foldl_cons]
    exact ih _ (advanceLoop_fst_lt d n hn _ hs)

/-- C4: starting from the reset state frameIndex = 0 established by
setAnimation, for every sequence of non-negative elapsed-time advances
against an entry with positive frame duration and frame count at least 1,
the frame index stays in [0, frameCount) after every advance (every prefix
of a tick sequence is itself a tick sequence, so the fold covers each
intermediate state). -/
theorem claim_C4_index_invariant (d : ℚ) (n : ℕ) (hd : 0 < d) (hn : 1 ≤ n)
    (deltas : List ℚ) (hpos : ∀ δ ∈ deltas, 0 ≤ δ) :
    0 ≤ (runClock d n deltas).1 ∧ (runClock d n deltas).1 < n :=
  ⟨Nat.zero_le _, foldl_advanceClock_fst_lt d n hn deltas (0, 0) hn⟩

/-- Witness for C4 at concrete inputs. -/
theorem claim_C4_index_invariant_witness :
    0 ≤ (runClock 100 4 [250, 130, 0]).1 ∧ (runClock 100 4 [250, 130, 0]).1 < 4 :=
  claim_C4_index_invariant 100 4 (by norm_num) (by norm_num) [250, 130, 0]
    (by norm_num)

/-- A config whose animation has an explicit empty frames array alongside
valid grid parameters (row 1, frameCount 3). -/
def cfgEmptyFrames : ConfigData :=
  { animations :=
      [("walk", { frames := some [], row := some 1, frameCount := some 3 })] }

/-- C1 counterexample: for the animation of cfgEmptyFrames the grid
parameters are valid (grid derivation alone would yield 3 frames), yet
normalization fails with the needs-frames error instead of falling back to
the grid, because Array.isArray is true of an empty array and the empty
resolution is then rejected. -/
theorem claim_C1_counterexample :
    buildFramesFromRow
        { frames := some [], row := some 1, frameCount := some 3 }
        (mergeDefaults {}) =
      some [⟨0, 32, 32, 32⟩, ⟨32, 32, 32, 32⟩, ⟨64, 32, 32, 32⟩]
    ∧ normalizeAnimations cfgEmptyFrames =
      .error (.animationNeedsFrames "walk") := by
  constructor
  · simp [buildFramesFromRow, mergeDefaults, gridSpecValid, jsIsInteger,
      List.range_succ, Int.toNat_ofNat]
    norm_num
  · simp [normalizeAnimations, normalizeList, normalizeEntry, resolveFrames,
      defaultsOrEmpty, cfgEmptyFrames]
    rfl

/-- C1 amended: the explicit frames array is used whenever it is present
(Array.isArray), not only when it is non-empty; a present non-empty array
is returned as-is, an absent frames field falls back to grid derivation,
and a present empty array makes normalization of the animation fail with
the needs-frames error naming the animation, even when row and frameCount
are valid. -/
theorem claim_C1_frames_resolution (animation : AnimSpec)
    (defaults : Defaults) (name : String) :
    (∀ fs, animation.frames = some fs →
      resolveFrames animation defaults = some fs)
    ∧ (animation.frames = none →
      resolveFrames animation defaults = buildFramesFromRow animation defaults)
    ∧ (animation.frames = some [] →
      normalizeEntry defaults name animation =
        .error (.animationNeedsFrames name)) := by
  refine ⟨fun fs hfs => ?_, fun hnone => ?_, fun hempty => ?_⟩
  · simp [resolveFrames, hfs]
  · simp [resolveFrames, hnone]
  · simp [normalizeEntry, resolveFrames, hempty]

/-- Witness for C1 amended at concrete inputs. -/
theorem claim_C1_frames_resolution_witness :
    resolveFrames { frames := some [⟨0, 0, 32, 32⟩] } (mergeDefaults {}) =
      some [⟨0, 0, 32, 32⟩]
    ∧ resolveFrames { row := some 1, frameCount := some 3 }
        (mergeDefaults {}) =
      buildFramesFromRow { row := some 1, frameCount := some 3 }
        (mergeDefaults {})
    ∧ normalizeEntry (mergeDefaults {}) "walk"
        { frames := some [], row := some 1, frameCount := some 3 } =
      .error (.animationNeedsFrames "walk") :=
  ⟨(claim_C1_frames_resolution _ (mergeDefaults {}) "x").1 _ rfl,
   (claim_C1_frames_resolution _ (mergeDefaults {}) "x").2.1 rfl,
   (claim_C1_frames_resolution _ (mergeDefaults {}) "walk").2.2 rfl⟩

/-- C5: for every grid spec passing validation (integer row, integer
frameCount with value n at least 1, positive resolved frame width and
height), buildFramesFromRow yields exactly n rectangles, rectangle i being
(x, y, w, h) = (sheetOffsetX + (startCol + i) * frameWidth,
sheetOffsetY + row * frameHeight, frameWidth, frameHeight); consequently x
grows by exactly frameWidth from each index to the next (strictly
increasing) and y is constant. -/
theorem claim_C5_grid_formula (animation : AnimSpec) (defaults : Defaults)
    (r c W H S offX offY : ℚ) (n : ℕ)
    (hW : animation.frameWidth.getD defaults.frameWidth = W)
    (hH : animation.frameHeight.getD defaults.frameHeight = H)
    (hS : animation.startCol.getD 0 = S)
    (hoX : animation.sheetOffsetX.getD defaults.sheetOffsetX = offX)
    (hoY : animation.sheetOffsetY.getD defaults.sheetOffsetY = offY)
    (hrow : animation.row = some r) (hcount : animation.frameCount = some c)
    (hrint : jsIsInteger r) (hc : c = (n : ℚ)) (hn : 1 ≤ n)
    (hWpos : 0 < W) (hHpos : 0 < H) :
    ∃ fs, buildFramesFromRow animation defaults = some fs
      ∧ fs.length = n
      ∧ (∀ i : ℕ, i < n → fs[i]? = some
          { x := offX + (S + (i : ℚ)) * W, y := offY + r * H, w := W, h := H })
      ∧ (∀ i : ℕ, ∀ a b : Rect, fs[i]? = some a → fs[i + 1]? = some b →
          b.x = a.x + W ∧ a.x < b.x ∧ b.y = a.y) := by
  have hcint : jsIsInteger c := by
    unfold jsIsInteger
    rw [hc, Rat.den_natCast]
  have hvalid : gridSpecValid r c W H :=
    ⟨hrint, hcint, by rw [hc]; exact_mod_cast hn, hWpos, hHpos⟩
  have hnum : c.num.toNat = n := by
    rw [hc, Rat.num_natCast, Int.toNat_natCast]
  have hbuild : buildFramesFromRow animation defaults =
      some ((List.range n).map fun index : ℕ =>
        ({ x := offX + (S + (index : ℚ)) * W, y := offY + r * H,
           w := W, h := H } : Rect)) := by
    unfold buildFramesFromRow
    simp only [hrow, hcount, hW, hH, hS, hoX, hoY, hnum, if_pos hvalid]
  refine ⟨_, hbuild, by simp, fun i hi => ?_, fun i a b ha hb => ?_⟩
  · simp [List.getElem?_map, List.getElem?_range, hi]
  · have hi1 : i + 1 < n := by
      by_contra hcon
      rw [List.getElem?_eq_none] at hb
      · exact Option.noConfusion hb
      · simpa using Nat.le_of_not_lt hcon
    have hi : i < n := Nat.lt_of_succ_lt hi1
    have ha2 := ha
    have hb2 := hb
    rw [List.getElem?_map, List.getElem?_range hi] at ha2
    rw [List.getElem?_map, List.getElem?_range hi1] at hb2
    obtain rfl : _ = a := Option.some.inj ha2
    obtain rfl : _ = b := Option.some.inj hb2
    refine ⟨by push_cast; ring, by push_cast; nlinarith, rfl⟩

/-- Witness for C5 at a concrete grid spec (row 2, frameCount 3,
startCol 1, default 32x32 geometry). -/
theorem claim_C5_grid_formula_witness :
    ∃ fs, buildFramesFromRow
        { row := some 2, frameCount := some 3, startCol := some 1 }
        (mergeDefaults {}) = some fs
      ∧ fs.length = 3
      ∧ (∀ i : ℕ, i < 3 → fs[i]? = some
          { x := 0 + (1 + (i : ℚ)) * 32, y := 0 + 2 * 32, w := 32, h := 32 })
      ∧ (∀ i : ℕ, ∀ a b : Rect, fs[i]? = some a → fs[i + 1]? = some b →
          b.x = a.x + 32 ∧ a.x < b.x ∧ b.y = a.y) :=
  claim_C5_grid_formula
    { row := some 2, frameCount := some 3, startCol := some 1 }
    (mergeDefaults {}) 2 3 32 32 1 0 0 3 rfl rfl rfl rfl rfl rfl rfl
    (by decide) (by norm_num) (by norm_num) (by norm_num) (by norm_num)

/-- C6: a grid-only animation (no frames array) whose grid parameters
violate the validation rule in any representable way (missing or
non-integer row or frameCount, frameCount below 1, non-positive resolved
width or height) makes buildFramesFromRow return the null marker, and
normalization of that animation fails with the needs-frames error naming
the animation, also as the result of normalizing any animation list that
reaches it. -/
theorem claim_C6_grid_rejection (animation : AnimSpec) (defaults : Defaults)
    (name : String) (hframes : animation.frames = none)
    (hviol : ∀ r c, animation.row = some r → animation.frameCount = some c →
      ¬ gridSpecValid r c (animation.frameWidth.getD defaults.frameWidth)
        (animation.frameHeight.getD defaults.frameHeight)) :
    buildFramesFromRow animation defaults = none
    ∧ normalizeEntry defaults name animation =
        .error (.animationNeedsFrames name)
    ∧ ∀ rest, normalizeList defaults ((name, animation) :: rest) =
        .error (.animationNeedsFrames name) := by
  have hbuild : buildFramesFromRow animation defaults = none := by
    cases hrow : animation.row with
    | none => simp [buildFramesFromRow, hrow]
    | some r =>
      cases hcount : animation.frameCount with
      | none => simp [buildFramesFromRow, hrow, hcount]
      | some c =>
        simp only [buildFramesFromRow, hrow, hcount]
        rw [if_neg (hviol r c hrow hcount)]
  have hentry : normalizeEntry defaults name animation =
      .error (.animationNeedsFrames name) := by
    simp [normalizeEntry, resolveFrames, hframes, hbuild]
  refine ⟨hbuild, hentry, fun rest => ?_⟩
  simp only [normalizeList, hentry]
  rfl

/-- Witness for C6 at the concrete violation frameCount = 0 named in the
claim. -/
theorem claim_C6_grid_rejection_witness :
    buildFramesFromRow { row := some 1, frameCount := some 0 }
        (mergeDefaults {}) = none
    ∧ normalizeEntry (mergeDefaults {}) "spin"
        { row := some 1, frameCount := some 0 } =
      .error (.animationNeedsFrames "spin")
    ∧ ∀ rest, normalizeList (mergeDefaults {})
        (("spin", { row := some 1, frameCount := some 0 }) :: rest) =
      .error (.animationNeedsFrames "spin") :=
  claim_C6_grid_rejection { row := some 1, frameCount := some 0 }
    (mergeDefaults {}) "spin" rfl
    (by intro r c hr hc
        obtain rfl : (1 : ℚ) = r := Option.some.inj hr
        obtain rfl : (0 : ℚ) = c := Option.some.inj hc
        simp [gridSpecValid])

/-- The concrete round-trip config of C7: one animation "run" with a single
explicit frame and no defaults. -/
def cfgRun : ConfigData :=
  { animations := [("run", { frames := some [⟨0, 0, 32, 32⟩] })] }

/-- C7: normalization merges the supplied defaults over the hardcoded base
(a supplied field wins, an omitted field keeps the base value 120 / 4 / 32
/ 32 / 0 / 0); every normalized entry takes its label from the supplied
label, else the key with its first character upper-cased, and its
frameDurationMs and scale from the supplied values, else the merged
defaults; and normalizing cfgRun with no defaults yields the entry "run"
with label "Run", frameDurationMs 120, scale 4 and exactly one frame. -/
theorem claim_C7_defaults_merge :
    (∀ (data : ConfigData) (dspec : DefaultsSpec) (table : AnimTable),
      data.defaults = .obj dspec → normalizeAnimations data = .ok table →
        table.defaults.frameDurationMs = dspec.frameDurationMs.getD 120
        ∧ table.defaults.scale = dspec.scale.getD 4
        ∧ table.defaults.frameWidth = dspec.frameWidth.getD 32
        ∧ table.defaults.frameHeight = dspec.frameHeight.getD 32
        ∧ table.defaults.sheetOffsetX = dspec.sheetOffsetX.getD 0
        ∧ table.defaults.sheetOffsetY = dspec.sheetOffsetY.getD 0)
    ∧ (∀ (defaults : Defaults) (name : String) (animation : AnimSpec)
        (entry : AnimEntry),
      normalizeEntry defaults name animation = .ok entry →
        entry.label = animation.label.getD (fallbackLabel name)
        ∧ entry.frameDurationMs =
            animation.frameDurationMs.getD defaults.frameDurationMs
        ∧ entry.scale = animation.scale.getD defaults.scale)
    ∧ normalizeAnimations cfgRun =
        .ok { defaults := ⟨120, 4, 32, 32, 0, 0⟩
              defaultAnimation := none
              animations := [("run",
                { label := "Run", frameDurationMs := 120, scale := 4,
                  frames := [⟨0, 0, 32, 32⟩] })] } := by
  refine ⟨fun data dspec table hdef htab => ?_, fun d name a entry hok => ?_, ?_⟩
  · have hdefaults : table.defaults = mergeDefaults (defaultsOrEmpty data.defaults) := by
      unfold normalizeAnimations at htab
      cases hlist : normalizeList
          (mergeDefaults (defaultsOrEmpty data.defaults)) data.animations with
      | error e => simp [hlist] at htab
      | ok entries =>
        simp [hlist] at htab
        rw [← htab]
    rw [hdefaults, hdef]
    simp [defaultsOrEmpty, mergeDefaults]
  · unfold normalizeEntry at hok
    split at hok
    · exact Except.noConfusion hok
    · exact Except.noConfusion hok
    · split at hok
      · have := Except.ok.inj hok
        subst this
        exact ⟨rfl, rfl, rfl⟩
      · exact Except.noConfusion hok
  · simp [normalizeAnimations, normalizeList, normalizeEntry, resolveFrames,
      isValidFrame, mergeDefaults, defaultsOrEmpty, fallbackLabel, cfgRun]
    rfl

/-- Witness for C7: the merge applied to a config supplying only
frameDurationMs 90, the entry fields of the round-trip entry, and the
round-trip itself. -/
theorem claim_C7_defaults_merge_witness :
    ((⟨90, 4, 32, 32, 0, 0⟩ : Defaults).frameDurationMs =
        (some (90 : ℚ)).getD 120
      ∧ (⟨90, 4, 32, 32, 0, 0⟩ : Defaults).scale = (none : Option ℚ).getD 4
      ∧ (⟨90, 4, 32, 32, 0, 0⟩ : Defaults).frameWidth =
          (none : Option ℚ).getD 32
      ∧ (⟨90, 4, 32, 32, 0, 0⟩ : Defaults).frameHeight =
          (none : Option ℚ).getD 32
      ∧ (⟨90, 4, 32, 32, 0, 0⟩ : Defaults).sheetOffsetX =
          (none : Option ℚ).getD 0
      ∧ (⟨90, 4, 32, 32, 0, 0⟩ : Defaults).sheetOffsetY =
          (none : Option ℚ).getD 0)
    ∧ (({ label := "Run", frameDurationMs := 120, scale := 4,
          frames := [⟨0, 0, 32, 32⟩] } : AnimEntry).label =
        (none : Option String).getD (fallbackLabel "run")
      ∧ ({ label := "Run", frameDurationMs := 120, scale := 4,
           frames := [⟨0, 0, 32, 32⟩] } : AnimEntry).frameDurationMs =
        (none : Option ℚ).getD 120
      ∧ ({ label := "Run", frameDurationMs := 120, scale := 4,
           frames := [⟨0, 0, 32, 32⟩] } : AnimEntry).scale =
        (none : Option ℚ).getD 4) := by
  constructor
  · refine claim_C7_defaults_merge.1
      { defaults := .obj { frameDurationMs := some 90 },
        animations := [("run", { frames := some [⟨0, 0, 32, 32⟩] })] }
      { frameDurationMs := some 90 }
      { defaults := ⟨90, 4, 32, 32, 0, 0⟩
        defaultAnimation := none
        animations := [("run",
          { label := "Run", frameDurationMs := 90, scale := 4,
            frames := [⟨0, 0, 32, 32⟩] })] } rfl ?_
    simp [normalizeAnimations, normalizeList, normalizeEntry, resolveFrames,
      isValidFrame, mergeDefaults, defaultsOrEmpty, fallbackLabel]
    rfl
  · refine claim_C7_defaults_merge.2.1 (mergeDefaults {}) "run"
      { frames := some [⟨0, 0, 32, 32⟩] }
      { label := "Run", frameDurationMs := 120, scale := 4,
        frames := [⟨0, 0, 32, 32⟩] } ?_
    simp [normalizeEntry, resolveFrames, isValidFrame, mergeDefaults,
      fallbackLabel]

/-- C8 counterexample: "toString" is not a key of the one-entry table (the
own-key lookup misses), yet selecting it does change the state: the
inherited Object.prototype.toString function is truthy at the line 45
guard, so the active key is set to "toString" and the clock is reset,
leaving the prior state behind. -/
theorem claim_C8_counterexample :
    lookupAnim
        ⟨⟨120, 4, 32, 32, 0, 0⟩, none,
          [("idle", ⟨"Idle", 120, 4, [⟨0, 0, 32, 32⟩]⟩)]⟩ "toString" = none
    ∧ setAnimation
        ⟨⟨120, 4, 32, 32, 0, 0⟩, none,
          [("idle", ⟨"Idle", 120, 4, [⟨0, 0, 32, 32⟩]⟩)]⟩
        ⟨some "idle", 3, 77⟩ "toString" = ⟨some "toString", 0, 0⟩
    ∧ (⟨some "toString", 0, 0⟩ : PlaybackState) ≠ ⟨some "idle", 3, 77⟩ :=
  ⟨rfl, rfl, by decide⟩

/-- C8 amended: selecting a key whose property access on the animations
object is falsy - neither an own key of the table nor an inherited
Object.prototype key - changes nothing (activeAnimationKey, frameIndex
and frameTimerMs all unchanged); selecting an own key, or an inherited
Object.prototype key such as toString, sets the active key to it and
resets frameIndex and frameTimerMs to 0, whatever the prior state was. -/
theorem claim_C8_selection (table : AnimTable) (st : PlaybackState)
    (key : String) :
    (lookupAnim table key = none →
      objectPrototypeKeys.contains key = false →
      setAnimation table st key = st)
    ∧ (∀ e, lookupAnim table key = some e → setAnimation table st key =
        { activeAnimationKey := some key, frameIndex := 0,
          frameTimerMs := 0 })
    ∧ (objectPrototypeKeys.contains key = true →
      setAnimation table st key =
        { activeAnimationKey := some key, frameIndex := 0,
          frameTimerMs := 0 }) := by
  refine ⟨fun hnone hproto => ?_, fun e he => ?_, fun hproto => ?_⟩
  · have hmem : key ∉ objectPrototypeKeys := by simpa using hproto
    simp [setAnimation, animKeyTruthy, hnone, hmem]
  · simp [setAnimation, animKeyTruthy, he]
  · have hmem : key ∈ objectPrototypeKeys := by simpa using hproto
    simp [setAnimation, animKeyTruthy, hmem]

/-- Witness for C8 amended: from a dirty prior state, a plain missing key
is a no-op, an existing key resets, and the inherited key "toString" also
resets. -/
theorem claim_C8_selection_witness :
    (setAnimation
        ⟨⟨120, 4, 32, 32, 0, 0⟩, none, [("idle", ⟨"Idle", 120, 4, [⟨0, 0, 32, 32⟩]⟩)]⟩
        ⟨some "idle", 3, 77⟩ "missing" = ⟨some "idle", 3, 77⟩)
    ∧ (setAnimation
        ⟨⟨120, 4, 32, 32, 0, 0⟩, none, [("idle", ⟨"Idle", 120, 4, [⟨0, 0, 32, 32⟩]⟩)]⟩
        ⟨some "idle", 3, 77⟩ "idle" = ⟨some "idle", 0, 0⟩)
    ∧ (setAnimation
        ⟨⟨120, 4, 32, 32, 0, 0⟩, none, [("idle", ⟨"Idle", 120, 4, [⟨0, 0, 32, 32⟩]⟩)]⟩
        ⟨some "idle", 3, 77⟩ "toString" = ⟨some "toString", 0, 0⟩) :=
  ⟨(claim_C8_selection _ _ "missing").1 rfl rfl,
   (claim_C8_selection _ _ "idle").2.1 ⟨"Idle", 120, 4, [⟨0, 0, 32, 32⟩]⟩ rfl,
   (claim_C8_selection _ _ "toString").2.2 rfl⟩

/-- A config whose only animation key is the empty string. -/
def cfgEmptyKey : ConfigData :=
  { animations := [("", { frames := some [⟨0, 0, 32, 32⟩] })] }

/-- C9 counterexample: cfgEmptyKey normalizes to a table with one entry,
yet startup selection fails with the no-animations error instead of
selecting the first key, because the first key is the empty string, which
is falsy in the `!startAnimation` test of line 276. -/
theorem claim_C9_counterexample :
    normalizeAnimations cfgEmptyKey =
      .ok { defaults := ⟨120, 4, 32, 32, 0, 0⟩
            defaultAnimation := none
            animations := [("",
              { label := "", frameDurationMs := 120, scale := 4,
                frames := [⟨0, 0, 32, 32⟩] })] }
    ∧ initSelect
        { defaults := ⟨120, 4, 32, 32, 0, 0⟩
          defaultAnimation := none
          animations := [("",
            { label := "", frameDurationMs := 120, scale := 4,
              frames := [⟨0, 0, 32, 32⟩] })] } =
      .error .noAnimations := by
  constructor
  · simp [normalizeAnimations, normalizeList, normalizeEntry, resolveFrames,
      isValidFrame, mergeDefaults, defaultsOrEmpty, fallbackLabel,
      cfgEmptyKey]
    rfl
  · rfl

/-- C9 amended: the initial key is defaultAnimation when that value is a
non-empty string whose property access on the animations object is truthy
- it names an existing entry, or it is an inherited Object.prototype key
such as toString; otherwise the initial key is the first key of the
table, and startup fails with the no-animations error when that fallback
is undefined (empty table) or is the empty string (a falsy key). -/
theorem claim_C9_start_selection (table : AnimTable) :
    (∀ dk, table.defaultAnimation = some dk → dk ≠ "" →
      animKeyTruthy table dk = true → initSelect table = .ok dk)
    ∧ ((table.defaultAnimation = none ∨
        (∃ dk, table.defaultAnimation = some dk ∧
          (dk = "" ∨ animKeyTruthy table dk = false))) →
      ((∀ k, firstKey table = some k → k ≠ "" → initSelect table = .ok k)
        ∧ (firstKey table = none → initSelect table = .error .noAnimations)
        ∧ (firstKey table = some "" →
            initSelect table = .error .noAnimations))) := by
  constructor
  · intro dk hdk hne hsome
    simp [initSelect, startAnimationOf, hdk, hne, hsome]
  · intro hfb
    have hstart : startAnimationOf table = firstKey table := by
      rcases hfb with hnone | ⟨dk, hdk, hcase⟩
      · simp [startAnimationOf, hnone]
      · rcases hcase with rfl | hlk
        · simp [startAnimationOf, hdk]
        · by_cases hdk0 : dk = ""
          · simp [startAnimationOf, hdk, hdk0]
          · simp [startAnimationOf, hdk, hdk0, hlk]
    refine ⟨fun k hk hkne => ?_, fun hnone => ?_, fun hempty => ?_⟩
    · simp [initSelect, hstart, hk, hkne]
    · simp [initSelect, hstart, hnone]
    · simp [initSelect, hstart, hempty]

/-- Witness for C9 amended: a table where the declared defaultAnimation
wins, one where the inherited key "toString" wins, one that falls back to
the first key, and an empty table that fails. -/
theorem claim_C9_start_selection_witness :
    initSelect
      ⟨⟨120, 4, 32, 32, 0, 0⟩, some "walk",
        [("idle", ⟨"Idle", 120, 4, [⟨0, 0, 32, 32⟩]⟩),
         ("walk", ⟨"Walk", 120, 4, [⟨0, 0, 32, 32⟩]⟩)]⟩ = .ok "walk"
    ∧ initSelect
      ⟨⟨120, 4, 32, 32, 0, 0⟩, some "toString",
        [("idle", ⟨"Idle", 120, 4, [⟨0, 0, 32, 32⟩]⟩)]⟩ = .ok "toString"
    ∧ initSelect
      ⟨⟨120, 4, 32, 32, 0, 0⟩, none,
        [("idle", ⟨"Idle", 120, 4, [⟨0, 0, 32, 32⟩]⟩),
         ("walk", ⟨"Walk", 120, 4, [⟨0, 0, 32, 32⟩]⟩)]⟩ = .ok "idle"
    ∧ initSelect ⟨⟨120, 4, 32, 32, 0, 0⟩, none, []⟩ =
      .error .noAnimations :=
  ⟨(claim_C9_start_selection _).1 "walk" rfl (by decide) rfl,
   (claim_C9_start_selection _).1 "toString" rfl (by decide) rfl,
   ((claim_C9_start_selection _).2 (Or.inl rfl)).1 "idle" rfl (by decide),
   ((claim_C9_start_selection _).2 (Or.inl rfl)).2.1 rfl⟩

/-- C10: a config whose top-level defaults field is JSON null passes
top-level validation (typeof null is "object") and normalizes exactly as
if defaults had been omitted, the merged defaults being the hardcoded base
values. -/
theorem claim_C10_null_defaults (data : ConfigData)
    (h : data.defaults = .null) :
    validateAnimations data = .ok ()
    ∧ normalizeAnimations data =
        normalizeAnimations { data with defaults := .undef }
    ∧ ∀ table, normalizeAnimations data = .ok table →
        table.defaults = ⟨120, 4, 32, 32, 0, 0⟩ := by
  refine ⟨?_, ?_, fun table htab => ?_⟩
  · simp [validateAnimations, h]
  · simp [normalizeAnimations, h, defaultsOrEmpty]
  · have hdefaults : table.defaults =
        mergeDefaults (defaultsOrEmpty data.defaults) := by
      unfold normalizeAnimations at htab
      cases hlist : normalizeList
          (mergeDefaults (defaultsOrEmpty data.defaults)) data.animations with
      | error e => simp [hlist] at htab
      | ok entries =>
        simp [hlist] at htab
        rw [← htab]
    rw [hdefaults, h]
    rfl

/-- Witness for C10 at a concrete config with null defaults. -/
theorem claim_C10_null_defaults_witness :
    validateAnimations
      { defaults := .null,
        animations := [("run", { frames := some [⟨0, 0, 32, 32⟩] })] } =
      .ok ()
    ∧ normalizeAnimations
        { defaults := .null,
          animations := [("run", { frames := some [⟨0, 0, 32, 32⟩] })] } =
      normalizeAnimations
        { defaults := .undef,
          animations := [("run", { frames := some [⟨0, 0, 32, 32⟩] })] }
    ∧ ({ defaults := ⟨120, 4, 32, 32, 0, 0⟩
         defaultAnimation := none
         animations := [("run",
           { label := "Run", frameDurationMs := 120, scale := 4,
             frames := [⟨0, 0, 32, 32⟩] })] } : AnimTable).defaults =
      ⟨120, 4, 32, 32, 0, 0⟩ := by
  refine ⟨(claim_C10_null_defaults _ rfl).1, (claim_C10_null_defaults _ rfl).2.1, ?_⟩
  refine (claim_C10_null_defaults
    { defaults := .null,
      animations := [("run", { frames := some [⟨0, 0, 32, 32⟩] })] }
    rfl).2.2 _ ?_
  simp [normalizeAnimations, normalizeList, normalizeEntry, resolveFrames,
    isValidFrame, mergeDefaults, defaultsOrEmpty, fallbackLabel]
  rfl
